import Mathlib

/-!
Verification of the EKMFWeb client library (`libekmfweb/ekmfweb.c`) against
its natural-language specification.  The definitions below are a shallow
embedding of the C code: JSON values model `json-c` objects (whose object
fields keep insertion order), byte buffers are `List Nat`, errno-style
return codes are `Int` (negative errno on failure, as in the C code), and
the external collaborators (CCA backend, OpenSSL, filesystem, libcurl) are
modelled by explicit oracle parameters recording whether each delegated
operation succeeds.
-/

namespace EkmfWeb

/-! ### errno constants (from linux errno.h, as used by the C code) -/

def EPERM : Int := 1

def ENOENT : Int := 2

def EIO : Int := 5

def ENOMEM : Int := 12

def EACCES : Int := 13

def EINVAL : Int := 22

def ERANGE : Int := 34

def EBADMSG : Int := 74

/-! ### JSON model (json-c)

`json-c` objects preserve the insertion order of their fields when
serialized, which the C code relies on ("the order of the fields is
important, EKMFWeb expects it in exactly this order").  Objects are
modelled as ordered association lists.  Arrays are not needed by any of
the code under verification and are omitted.
-/

inductive Json where
  | null : Json
  | bool (b : Bool) : Json
  | int (n : Int) : Json
  | str (s : String) : Json
  | obj (fields : List (String × Json)) : Json

/-- `json_object_is_type(obj, json_type_object)`. -/
def Json.isObj : Json → Bool
  | .obj _ => true
  | _ => false

/-- `json_object_is_type(obj, json_type_int)`. -/
def Json.isInt : Json → Bool
  | .int _ => true
  | _ => false

/-- `json_object_is_type(obj, json_type_string)`. -/
def Json.isStr : Json → Bool
  | .str _ => true
  | _ => false

/-- Field lookup in an association list (first match). -/
def Json.getField : List (String × Json) → String → Option Json
  | [], _ => none
  | (k, v) :: rest, key => if k = key then some v else Json.getField rest key

/-- `json_object_object_get_ex`: returns the value of the named field of an
object, `none` if the field is absent or the value is not an object. -/
def Json.objGet : Json → String → Option Json
  | .obj fs, key => Json.getField fs key
  | _, _ => none

/-- Adding a field to an association list: replace in place if the key is
already present, otherwise append at the end (json-c hash table with
ordered links). -/
def Json.addField : List (String × Json) → String → Json → List (String × Json)
  | [], k, v => [(k, v)]
  | (k', v') :: rest, k, v =>
      if k' = k then (k, v) :: rest else (k', v') :: Json.addField rest k v

/-- `json_object_object_add_ex(obj, key, val, 0)` on an object. -/
def Json.objAdd : Json → String → Json → Json
  | .obj fs, k, v => .obj (Json.addField fs k v)
  | j, _, _ => j

/-- Removing a field from an association list (first match). -/
def Json.delField : List (String × Json) → String → List (String × Json)
  | [], _ => []
  | (k', v') :: rest, k =>
      if k' = k then rest else (k', v') :: Json.delField rest k

/-- `json_object_object_del(obj, key)`. -/
def Json.objDel : Json → String → Json
  | .obj fs, k => .obj (Json.delField fs k)
  | j, _ => j

/-! ### Plain serialization

Models `json_object_to_json_string_ext(obj, JSON_C_TO_STRING_PLAIN |
JSON_C_TO_STRING_NOSLASHESCAPE)`: no whitespace, fields in insertion
order, strings quoted with `"` and `\` escaped (control-character escapes
are not modelled; the strings appearing in the protocol objects contain
none). -/

def escapeChar (c : Char) : String :=
  if c = '"' then "\\\"" else if c = '\\' then "\\\\" else String.singleton c

def serializeStr (s : String) : String :=
  "\"" ++ String.join (s.toList.map escapeChar) ++ "\""

mutual

def Json.serialize : Json → String
  | .null => "null"
  | .bool b => if b then "true" else "false"
  | .int n => toString n
  | .str s => serializeStr s
  | .obj fs => "\x7b" ++ Json.serializeFields fs ++ "\x7d"

def Json.serializeFields : List (String × Json) → String
  | [] => ""
  | [(k, v)] => serializeStr k ++ ":" ++ Json.serialize v
  | (k, v) :: f :: rest =>
      serializeStr k ++ ":" ++ Json.serialize v ++ "," ++
        Json.serializeFields (f :: rest)

end

/-! ### Login token validator (`ekmf_check_login_token`, ekmfweb.c:1095-1218)

The state of the login-token storage as the function observes it:
`config->login_token == NULL`, the file missing (`stat` fails with
`ENOENT`), the file empty, or a token whose payload parses (or fails to
parse).  `parse_json_web_token` lives in `utilities.c` (outside the
sources under verification); per the spec it "parses the token's payload
claims", so the token content is modelled directly by the outcome of that
parse: either an error code or the payload JSON object. -/

inductive TokenFile where
  | noConfig : TokenFile
  | missing : TokenFile
  | empty : TokenFile
  | token (parse : Except Int Json) : TokenFile

/-- The observable outcome of `ekmf_check_login_token`: the returned `rc`,
the value written to `*valid` (`none` when the function returns without
ever writing it), and whether the raw token string was handed back via
`*login_token`. -/
structure CheckResult where
  rc : Int
  valid : Option Bool
  tokenReturned : Bool
deriving DecidableEq

/-- The `nbf` claim check (ekmfweb.c:1188-1202): entered with the validity
flag left by the `exp` check; a present integer `nbf` equal to zero is a
hard `- EIO` error, a present integer `nbf` with `now <= nbf` clears the
flag, anything else leaves it alone. -/
def nbf_check (payload : Json) (now : Int) (valid : Bool) : Int × Bool :=
  match payload.objGet "nbf" with
  | some (Json.int nbf) =>
      if nbf = 0 then (- EIO, valid)
      else if now ≤ nbf then (0, false)
      else (0, valid)
  | _ => (0, valid)

/-- The claims processing of `ekmf_check_login_token` (ekmfweb.c:1172-1202)
on a successfully parsed payload: `*valid` starts out `true`; a present
integer `exp` equal to zero is a hard `- EIO` error; a present integer
`exp` with `now > exp` marks the token invalid; then the `nbf` claim is
checked.  A claim that is present but not of JSON integer type fails the
`json_object_is_type(.., json_type_int)` test and the whole block is
skipped. -/
def claims_check (payload : Json) (now : Int) : Int × Bool :=
  match payload.objGet "exp" with
  | some (Json.int exp) =>
      if exp = 0 then (- EIO, true)
      else if now > exp then nbf_check payload now false
      else nbf_check payload now true
  | _ => nbf_check payload now true

/-- `ekmf_check_login_token` (ekmfweb.c:1095-1218).  `now` is the current
time obtained from `time(&now)`.  Memory-allocation and `fopen`/`fread`
failures after a successful `stat` are not modelled. -/
def ekmf_check_login_token (file : TokenFile) (now : Int) : CheckResult :=
  match file with
  | .noConfig => ⟨0, some false, false⟩
  | .missing => ⟨-ENOENT, none, false⟩
  | .empty => ⟨- EIO, none, false⟩
  | .token (.error e) => ⟨e, some true, false⟩
  | .token (.ok payload) =>
      let r := claims_check payload now
      ⟨r.1, some r.2, r.1 == 0 && r.2⟩

/-! ### JWS algorithm selection (`_ekmf_build_signature`, ekmfweb.c:1407-1597)

OpenSSL NID constants as used by the C code. -/

def NID_sha256 : Int := 672

def NID_sha384 : Int := 673

def NID_sha512 : Int := 674

def NID_X9_62_prime256v1 : Int := 415

def NID_secp384r1 : Int := 715

def NID_secp521r1 : Int := 716

/-- The type of the identity key as obtained from the key blob: an EC key
on some curve (identified by its OpenSSL NID), an RSA key, or an RSA-PSS
key (`EVP_PKEY_id(pkey)` being `EVP_PKEY_EC`, `EVP_PKEY_RSA` or
`EVP_PKEY_RSA_PSS`). -/
inductive SignKey where
  | ec (curve_nid : Int) : SignKey
  | rsa : SignKey
  | rsaPss : SignKey

/-- The JWS algorithm/digest selection of `_ekmf_build_signature`
(ekmfweb.c:1478-1545): on success, the JWS `alg` identifier and the digest
NID actually used; `-EINVAL` for an unsupported curve or digest.  For EC
keys the caller-supplied `digest_nid` is overwritten from the curve; for
RSA and RSA-PSS keys a `digest_nid` of `0` selects the SHA-512 default. -/
def select_jws_alg (key : SignKey) (digest_nid : Int) : Except Int (String × Int) :=
  match key with
  | .ec curve_nid =>
      if curve_nid = NID_secp521r1 then .ok ("ES512", NID_sha512)
      else if curve_nid = NID_secp384r1 then .ok ("ES384", NID_sha384)
      else if curve_nid = NID_X9_62_prime256v1 then .ok ("ES256", NID_sha256)
      else .error (-EINVAL)
  | .rsa =>
      if digest_nid = NID_sha256 then .ok ("RS256", NID_sha256)
      else if digest_nid = NID_sha384 then .ok ("RS384", NID_sha384)
      else if digest_nid = NID_sha512 ∨ digest_nid = 0 then .ok ("RS512", NID_sha512)
      else .error (-EINVAL)
  | .rsaPss =>
      if digest_nid = NID_sha256 then .ok ("PS256", NID_sha256)
      else if digest_nid = NID_sha384 then .ok ("PS384", NID_sha384)
      else if digest_nid = NID_sha512 ∨ digest_nid = 0 then .ok ("PS512", NID_sha512)
      else .error (-EINVAL)

/-! ### Response signature verification (`_ekmf_verify_signature`,
ekmfweb.c:1605-1655)

`verify_json_web_signature` (utilities.c, outside the sources under
verification) is modelled as an oracle `vrfy` mapping the compact
signature string and the payload bytes to its return code (0 on successful
verification, nonzero otherwise). -/

/-- `_ekmf_verify_signature`: returns the function's return code together
with the response object as it is left behind (the C function mutates the
object in place).  The signature field is looked up; a missing or
non-string field is a `- EIO` error (`JSON_CHECK_OBJ`), and in that case
the object is left untouched.  Otherwise the field is removed and the
detached signature is verified over the plain serialization of the
remaining object. -/
def ekmf_verify_signature (vrfy : String → String → Int) (response_obj : Json) :
    Int × Json :=
  match response_obj.objGet "signature" with
  | some (Json.str sig) =>
      let stripped := response_obj.objDel "signature"
      let sign_payload := stripped.serialize
      (vrfy sig sign_payload, stripped)
  | some _ => (- EIO, response_obj)
  | none => (- EIO, response_obj)

/-! ### Request assembly (`ekmf_retrieve_key`, ekmfweb.c:1913-1979)

The request object is built field by field with
`json_object_object_add_ex`; "the order of the fields is important,
EKMFWeb expects it in exactly this order" (comment at ekmfweb.c:1913). -/

/-- The `additionalInfo` sub-object (ekmfweb.c:1917-1934): `kdf`,
`requestedKey`, `timestamp`, added in this order to a fresh object. -/
def build_addl_info_obj (key_uuid : String) (timestamp_obj : Json) : Json :=
  ((Json.obj []).objAdd "kdf" (Json.str "ANS-X9.63-CCA")).objAdd
      "requestedKey" (Json.str key_uuid) |>.objAdd "timestamp" timestamp_obj

/-- The `originator` sub-object (ekmfweb.c:1936-1949): `session`,
`partyInfo`, added in this order. -/
def build_originator_obj (sess_jwk party_info_obj : Json) : Json :=
  ((Json.obj []).objAdd "session" sess_jwk).objAdd "partyInfo" party_info_obj

/-- The request object as it is signed (ekmfweb.c:1951-1964): `originator`
then `additionalInfo`; the `signature` field is not yet present. -/
def build_request_obj (sess_jwk party_info_obj : Json) (key_uuid : String)
    (timestamp_obj : Json) : Json :=
  ((Json.obj []).objAdd "originator" (build_originator_obj sess_jwk party_info_obj)).objAdd
      "additionalInfo" (build_addl_info_obj key_uuid timestamp_obj)

/-- The request object as it is sent (ekmfweb.c:1975-1979): the detached
signature, computed over the serialization of `build_request_obj`, is
appended as the final `signature` field after signing. -/
def build_signed_request_obj (sess_jwk party_info_obj : Json) (key_uuid : String)
    (timestamp_obj : Json) (signature_obj : Json) : Json :=
  (build_request_obj sess_jwk party_info_obj key_uuid timestamp_obj).objAdd
      "signature" signature_obj

/-! ### Key import (`_ekmf_import_key`, ekmfweb.c:1660-1756)

Byte buffers are `List Nat`.  The CCA backend operations (which the C code
delegates to `cca.c`) are modelled as oracles returning either a negative
errno or the produced key material. -/

/-- `malloc(n)`: a fresh buffer of `n` bytes with unspecified contents
(modelled as zeros; nothing below depends on the initial contents). -/
def malloc_bytes (n : Nat) : List Nat := List.replicate n 0

/-- `memcpy(dst + ofs, src, src.length)` inside a buffer `dst` that is
large enough: the bytes of `src` overwrite `dst` starting at offset
`ofs`. -/
def memcpy_at (dst : List Nat) (ofs : Nat) (src : List Nat) : List Nat :=
  dst.take ofs ++ src ++ dst.drop (ofs + src.length)

/-- The combined party-info buffer of `_ekmf_import_key`
(ekmfweb.c:1679-1689): a `malloc` of the summed length, then
`memcpy(party_info, req_party_info, req_party_info_length)` and
`memcpy(party_info + req_party_info_length, resp_party_info,
resp_party_info_length)`. -/
def combined_party_info (req_party_info resp_party_info : List Nat) : List Nat :=
  memcpy_at
    (memcpy_at (malloc_bytes (req_party_info.length + resp_party_info.length))
      0 req_party_info)
    req_party_info.length resp_party_info

/-- The CCA external library operations used by `_ekmf_import_key`
(`ext_lib->cca`): `cca_import_key_from_json_web_key`,
`cca_ec_dh_derive_importer` (private key bytes, public key bytes, party
info bytes), and `cca_import_external_key` (wrapped key bytes, transport
key bytes). -/
structure CcaLib where
  key_from_jwk : Json → Except Int (List Nat)
  ec_dh_derive : List Nat → List Nat → List Nat → Except Int (List Nat)
  external_key_under_tk : List Nat → List Nat → Except Int (List Nat)

/-- `_ekmf_import_key` (ekmfweb.c:1660-1756): build the combined party
info, import the responder's session EC key from its JWK, derive the
transport key from the requester's session private key, the responder's
session public key and the combined party info, import the exported key
JWK, and unwrap it under the transport key into the output key blob. -/
def ekmf_import_key (cca : CcaLib) (req_sess_key : List Nat)
    (req_party_info resp_party_info : List Nat)
    (resp_sess_jwk_obj resp_exp_jwk_obj : Json) : Except Int (List Nat) := do
  let party_info := combined_party_info req_party_info resp_party_info
  let resp_sess_key ← cca.key_from_jwk resp_sess_jwk_obj
  let transport_key ← cca.ec_dh_derive req_sess_key resp_sess_key party_info
  let resp_exported_key ← cca.key_from_jwk resp_exp_jwk_obj
  cca.external_key_under_tk resp_exported_key transport_key

/-! ### Sensitive-buffer cleanup (`ekmf_retrieve_key` out label,
ekmfweb.c:2088-2117, and `_ekmf_import_key` out label, ekmfweb.c:1751-1755)

The spec demands that the ephemeral session private key
(`req_sess_ec_key`) and the derived transport key (`transport_key`) be
zeroed on every exit path.  The cleanup statements the two functions
actually execute on their way out are transcribed below as actions on the
sensitive buffers; a `zeroize` action (what a `memset(.., 0, ..)` of one
of the buffers would be) is part of the action language so that the
property can be expressed, but no `memset`, `OPENSSL_cleanse` or
`explicit_bzero` occurs anywhere in ekmfweb.c. -/

/-- The two sensitive stack buffers named by the claim. -/
inductive SensBuf where
  | reqSessEcKey : SensBuf
  | transportKey : SensBuf

/-- Contents of the sensitive buffers at a program point. -/
structure SensState where
  req_sess_ec_key : List Nat
  transport_key : List Nat
deriving DecidableEq

/-- One cleanup statement: releasing the CURL handle, `json_object_put`,
`free`, `EVP_PKEY_free`, `curl_free` — none of which touches the stack
buffers — or a zeroization of a sensitive buffer (never performed by the
code). -/
inductive CleanupAction where
  | releaseCurlHandle : CleanupAction
  | jsonPut (obj : String) : CleanupAction
  | freePtr (ptr : String) : CleanupAction
  | evpPkeyFree (ptr : String) : CleanupAction
  | curlFree (ptr : String) : CleanupAction
  | zeroize (buf : SensBuf) : CleanupAction

def cleanup_step (s : SensState) : CleanupAction → SensState
  | .zeroize .reqSessEcKey =>
      { s with req_sess_ec_key := List.replicate s.req_sess_ec_key.length 0 }
  | .zeroize .transportKey =>
      { s with transport_key := List.replicate s.transport_key.length 0 }
  | _ => s

def run_cleanup (actions : List CleanupAction) (s : SensState) : SensState :=
  actions.foldl cleanup_step s

/-- The out-label epilogue of `ekmf_retrieve_key`, statement by statement
(ekmfweb.c:2088-2117). -/
def retrieve_key_out_label : List CleanupAction :=
  [.releaseCurlHandle,
   .jsonPut "req_sess_jwk_obj",
   .jsonPut "req_timestamp_obj",
   .jsonPut "req_addl_info_obj",
   .jsonPut "req_party_info_obj",
   .jsonPut "req_originator_obj",
   .jsonPut "req_signature_obj",
   .jsonPut "request_obj",
   .jsonPut "response_obj",
   .freePtr "uri",
   .freePtr "login_token",
   .evpPkeyFree "server_pubkey",
   .freePtr "resp_party_info",
   .curlFree "escaped_uuid"]

/-- The out-label epilogue of `_ekmf_import_key` (ekmfweb.c:1751-1755). -/
def import_key_out_label : List CleanupAction :=
  [.freePtr "party_info"]

/-! ### Public-key extraction (`_ekmf_extract_pubkey`, ekmfweb.c:127-178,
and `_ekmf_process_certificate`, ekmfweb.c:184-216)

The OpenSSL and stdio calls are modelled by success flags determined by
the certificate data and the filesystem (`BIO_new_mem_buf`, a plain
allocation, is assumed to succeed; allocation failure is not an input). -/

structure ExtractPubkeyEnv where
  /-- `PEM_read_bio_X509` succeeds on the certificate data. -/
  pem_read_ok : Bool
  /-- `X509_get0_pubkey` succeeds on the parsed certificate. -/
  get_pubkey_ok : Bool
  /-- `fopen(pub_key_pem, "w")` succeeds. -/
  fopen_ok : Bool
  /-- the (positive) errno when `fopen` fails. -/
  fopen_errno : Int
  /-- `PEM_write_PUBKEY` succeeds. -/
  pem_write_ok : Bool

/-- The value the local variable `rc` of `_ekmf_extract_pubkey` holds at
the `out` label (ekmfweb.c:142-168); on the all-success path `rc` is never
assigned and is modelled as 0. -/
def ekmf_extract_pubkey_rc (e : ExtractPubkeyEnv) : Int :=
  if ¬e.pem_read_ok then - EIO
  else if ¬e.get_pubkey_ok then - EIO
  else if ¬e.fopen_ok then -e.fopen_errno
  else if ¬e.pem_write_ok then - EIO
  else 0

/-- `_ekmf_extract_pubkey` (ekmfweb.c:127-178): the internal `rc` is
computed, but the function ends in `return 0;` (ekmfweb.c:177), so `rc`
is discarded. -/
def ekmf_extract_pubkey (e : ExtractPubkeyEnv) : Int :=
  let _rc := ekmf_extract_pubkey_rc e
  0

/-- One entry of the curl `certinfo` attribute slist handed to
`_ekmf_process_certificate`, as the function observes it: whether the
entry starts with `"Cert:"`, whether the `fwrite` of the certificate data
succeeds (with its errno when it fails), and the environment of the
public-key extraction on this certificate. -/
structure CertSlistEntry where
  is_cert_attr : Bool
  fwrite_ok : Bool
  fwrite_errno : Int
  extract_env : ExtractPubkeyEnv

/-- `_ekmf_process_certificate` (ekmfweb.c:184-216): for every `"Cert:"`
entry, write the PEM data to `fp` (when a file is given) and, when
`pub_key_pem` is given, extract the public key via
`_ekmf_extract_pubkey`, propagating any nonzero return code. -/
def ekmf_process_certificate (fp_given pub_key_pem_given : Bool) :
    List CertSlistEntry → Int
  | [] => 0
  | e :: rest =>
      if e.is_cert_attr then
        if fp_given ∧ ¬e.fwrite_ok then -e.fwrite_errno
        else if pub_key_pem_given then
          let rc := ekmf_extract_pubkey e.extract_env
          if rc ≠ 0 then rc
          else ekmf_process_certificate fp_given pub_key_pem_given rest
        else ekmf_process_certificate fp_given pub_key_pem_given rest
      else ekmf_process_certificate fp_given pub_key_pem_given rest

/-! ### HTTP status handling of `ekmf_retrieve_key` (ekmfweb.c:1994-2086)
and API error extraction (`_ekmf_get_api_error`, ekmfweb.c:554-581)

The portion of the retrieval after the HTTP exchange completed, i.e.
after `curl_easy_perform` returned `CURLE_OK` and the HTTP status code
was obtained: the error-message extraction inside
`_ekmf_perform_request` (ekmfweb.c:963-977), the status-code switch, the
response checks, the signature verification and the key import. -/

/-- `_ekmf_get_api_error` (ekmfweb.c:554-581): the response must be a JSON
object with an integer `code` field and a string `message` field;
otherwise `-EBADMSG`.  On success the error message
`"EKMFWeb: <code>: <message>"` is produced (`asprintf` failure is not
modelled). -/
def ekmf_get_api_error (response_obj : Json) : Except Int String :=
  if ¬response_obj.isObj then .error (-EBADMSG)
  else match response_obj.objGet "code" with
    | none => .error (-EBADMSG)
    | some code_field =>
        if ¬code_field.isInt then .error (-EBADMSG)
        else match response_obj.objGet "message" with
          | some (Json.str msg) =>
              match code_field with
              | Json.int code => .ok ("EKMFWeb: " ++ toString code ++ ": " ++ msg)
              | _ => .error (-EBADMSG)
          | some _ => .error (-EBADMSG)
          | none => .error (-EBADMSG)

/-- The tail of `_ekmf_perform_request` once the exchange completed
(ekmfweb.c:959-997): given the HTTP status code, the parsed JSON response
body (`write_cb.obj`, `none` when the response had no JSON body) and
whether the caller asked for an error message (`error_msg != NULL`),
returns the function's `rc`, the response object handed back via
`*response_data`, and `*error_msg`.  For a status of 400 or more with a
JSON body and an error message requested, the API error is extracted; on
extraction success the body is consumed (`*response_data` becomes
`NULL`), on extraction failure its error code is returned. -/
def perform_request_post (status : Int) (body : Option Json)
    (error_msg_requested : Bool) : Int × Option Json × Option String :=
  if 400 ≤ status ∧ body.isSome ∧ error_msg_requested then
    match body with
    | some b =>
        match ekmf_get_api_error b with
        | .ok msg => (0, none, some msg)
        | .error e => (e, none, none)
    | none => (0, none, none)
  else (0, body, none)

/-- The response-field extraction of `ekmf_retrieve_key` after successful
signature verification (ekmfweb.c:2037-2076): `originator` must be an
object, its `session` field must be an object, its `partyInfo` field must
decode from base64url, `additionalInfo` must be an object and its
`exportedKey` field must be an object; each failure is `-EBADMSG`.
`json_object_get_base64url` (utilities.c, outside the sources under
verification) is modelled from the spec: it succeeds exactly when the
field is present as a string (the encoded value); the decoded bytes are
given by the oracle `b64`. -/
def extract_response (b64 : String → List Nat) (robj : Json) :
    Except Int (Json × List Nat × Json) := do
  let orig ← match robj.objGet "originator" with
    | some o => if o.isObj then pure o else .error (-EBADMSG)
    | none => .error (-EBADMSG)
  let sess ← match orig.objGet "session" with
    | some s => if s.isObj then pure s else .error (-EBADMSG)
    | none => .error (-EBADMSG)
  let party_info ← match orig.objGet "partyInfo" with
    | some (Json.str enc) => pure (b64 enc)
    | _ => .error (-EBADMSG)
  let addl ← match robj.objGet "additionalInfo" with
    | some a => if a.isObj then pure a else .error (-EBADMSG)
    | none => .error (-EBADMSG)
  let expKey ← match addl.objGet "exportedKey" with
    | some x => if x.isObj then pure x else .error (-EBADMSG)
    | none => .error (-EBADMSG)
  pure (sess, party_info, expKey)

/-- The observable outcome of the post-exchange portion of
`ekmf_retrieve_key`: its return code, the error message handed back, and
whether the response-signature verification and the key import (unwrap)
were reached. -/
structure RetrieveOutcome where
  rc : Int
  error_msg : Option String
  verify_attempted : Bool
  unwrap_attempted : Bool
deriving DecidableEq

/-- The post-exchange behaviour of `ekmf_retrieve_key`
(ekmfweb.c:1994-2086): the `_ekmf_perform_request` tail, the status-code
switch (200 falls through; 400 → `-EBADMSG`; 401 → `-EACCES`; 403 →
`-EPERM`; 404 → `-ENOENT`; anything else → `- EIO`), the
`JSON_CHECK_OBJ` on the response, signature verification, response
extraction, and the key import.  `vrfy` and `b64` are the verification
and base64url oracles and `import_rc` the outcome of
`_ekmf_import_key`. -/
def ekmf_retrieve_key_response (vrfy : String → String → Int)
    (b64 : String → List Nat) (import_rc : Int) (status : Int)
    (body : Option Json) (error_msg_requested : Bool) : RetrieveOutcome :=
  let post := perform_request_post status body error_msg_requested
  let emsg := post.2.2
  if post.1 ≠ 0 then
    ⟨if post.1 > 0 then - EIO else post.1, emsg, false, false⟩
  else if status = 200 then
    match post.2.1 with
    | some robj =>
        if robj.isObj then
          let v := ekmf_verify_signature vrfy robj
          if v.1 ≠ 0 then ⟨v.1, emsg, true, false⟩
          else
            match extract_response b64 v.2 with
            | .error e => ⟨e, emsg, true, false⟩
            | .ok _ => ⟨import_rc, emsg, true, true⟩
        else ⟨-EBADMSG, emsg, false, false⟩
    | none => ⟨-EBADMSG, emsg, false, false⟩
  else if status = 400 then ⟨-EBADMSG, emsg, false, false⟩
  else if status = 401 then ⟨-EACCES, emsg, false, false⟩
  else if status = 403 then ⟨-EPERM, emsg, false, false⟩
  else if status = 404 then ⟨-ENOENT, emsg, false, false⟩
  else ⟨- EIO, emsg, false, false⟩

/-! ### Derived views and concrete fixtures used by the theorems below -/

/-- The integer view of a JWT claim: `some n` exactly when the claim is
present with JSON integer type (the two-step test
`json_object_object_get_ex(..) && json_object_is_type(.., json_type_int)`
of ekmfweb.c:1172 and 1188), `none` when it is absent or of any other
type. -/
def intClaim (payload : Json) (key : String) : Option Int :=
  match payload.objGet key with
  | some (Json.int n) => some n
  | _ => none

/-- A JSON object holds no duplicate keys (always true of json-c objects,
whose `json_object_object_add` replaces an existing key). -/
def keysNodup : Json → Prop
  | .obj fs => (fs.map Prod.fst).Nodup
  | _ => True

/-- The part of a `certinfo` slist entry that does not concern public-key
extraction. -/
def certEntryView (e : CertSlistEntry) : Bool × Bool × Int :=
  (e.is_cert_attr, e.fwrite_ok, e.fwrite_errno)

/-- A signature-verification oracle that accepts everything (used to
instantiate theorems at concrete inputs). -/
def vrfy0 : String → String → Int := fun _ _ => 0

/-- A base64url-decoding oracle (used to instantiate theorems at concrete
inputs). -/
def b640 : String → List Nat := fun _ => []

/-- A CCA backend in which every delegated operation succeeds (used to
instantiate theorems at concrete inputs). -/
def cca0 : CcaLib :=
  ⟨fun _ => .ok [9], fun _ _ pi => .ok pi, fun _ tk => .ok tk⟩

/-! ## Theorems -/

/-! ### Shared helper lemmas -/

theorem intClaim_eq_some {payload : Json} {key : String} {n : Int} :
    intClaim payload key = some n ↔ payload.objGet key = some (Json.int n) := by
  unfold intClaim
  rcases h : payload.objGet key with _ | j <;> (try cases j) <;> simp

/-- The claims processing of `ekmf_check_login_token`, characterized as a
function of the integer views of the `exp` and `nbf` claims and the
current time. -/
theorem claims_check_cases (payload : Json) (now : Int) :
    claims_check payload now =
      match intClaim payload "exp", intClaim payload "nbf" with
      | some e, some b =>
          if e = 0 then (- EIO, true)
          else if b = 0 then (- EIO, decide (now ≤ e))
          else (0, decide (now ≤ e) && decide (b < now))
      | some e, none => if e = 0 then (- EIO, true) else (0, decide (now ≤ e))
      | none, some b => if b = 0 then (- EIO, true) else (0, decide (b < now))
      | none, none => (0, true) := by
  unfold claims_check nbf_check intClaim
  rcases hE : payload.objGet "exp" with _ | j <;>
    rcases hN : payload.objGet "nbf" with _ | k <;>
    (try cases j) <;> (try cases k) <;>
    simp <;> (try split_ifs) <;> simp_all

theorem getField_eq_none_of_not_mem {fs : List (String × Json)} {k : String}
    (h : k ∉ fs.map Prod.fst) : Json.getField fs k = none := by
  induction fs with
  | nil => rfl
  | cons p rest ih =>
    obtain ⟨k', v⟩ := p
    simp only [List.map_cons, List.mem_cons] at h
    push_neg at h
    simp [Json.getField, Ne.symm h.1, ih h.2]

theorem getField_delField_self {fs : List (String × Json)} {k : String}
    (h : (fs.map Prod.fst).Nodup) :
    Json.getField (Json.delField fs k) k = none := by
  induction fs with
  | nil => rfl
  | cons p rest ih =>
    obtain ⟨k', v⟩ := p
    simp only [List.map_cons, List.nodup_cons] at h
    by_cases hk : k' = k
    · subst hk
      simpa [Json.delField] using getField_eq_none_of_not_mem h.1
    · simp [Json.delField, hk, Json.getField, ih h.2]

theorem ekmf_get_api_error_ok {b : Json} {c : Int} {m : String}
    (hobj : b.isObj = true) (hc : b.objGet "code" = some (Json.int c))
    (hm : b.objGet "message" = some (Json.str m)) :
    ekmf_get_api_error b = .ok ("EKMFWeb: " ++ toString c ++ ": " ++ m) := by
  simp [ekmf_get_api_error, hobj, hc, hm, Json.isInt]

/-! ### C4 — token validity as a function of the temporal claims -/

/-- Claim C4 counterexample: a token whose payload carries the integer,
nonzero claims `exp = 100` and `nbf = 50`, checked at time 40.  The claim
states that a token carrying an integer nonzero `exp` is reported invalid
exactly when `now > exp`; here `now = 40 ≤ 100 = exp`, yet the token is
reported invalid (because `now ≤ nbf`), with return code 0. -/
theorem C4_counterexample :
    (Json.obj [("exp", Json.int 100), ("nbf", Json.int 50)]).objGet "exp"
        = some (Json.int 100) ∧
    ¬((40 : Int) > 100) ∧
    ekmf_check_login_token
        (.token (.ok (Json.obj [("exp", Json.int 100), ("nbf", Json.int 50)]))) 40
      = ⟨0, some false, false⟩ :=
  ⟨rfl, by decide, by decide⟩

/-- Claim C4 (amended): for a token whose payload parses and whose present
integer `exp`/`nbf` claims are nonzero, `ekmf_check_login_token` returns 0
and reports the token invalid exactly when `now > exp` (for a present
integer `exp`) **or** `now ≤ nbf` (for a present integer `nbf`); a token
carrying neither claim is reported valid.  The result is a function of the
claims and the current time only. -/
theorem C4_amended (payload : Json) (now : Int)
    (hexp : ∀ e, payload.objGet "exp" = some (Json.int e) → e ≠ 0)
    (hnbf : ∀ b, payload.objGet "nbf" = some (Json.int b) → b ≠ 0) :
    (ekmf_check_login_token (.token (.ok payload)) now).rc = 0 ∧
    (∃ v, (ekmf_check_login_token (.token (.ok payload)) now).valid = some v) ∧
    ((ekmf_check_login_token (.token (.ok payload)) now).valid = some false ↔
      (∃ e, payload.objGet "exp" = some (Json.int e) ∧ now > e) ∨
      (∃ b, payload.objGet "nbf" = some (Json.int b) ∧ now ≤ b)) := by
  have he0 : ∀ e, intClaim payload "exp" = some e → e ≠ 0 :=
    fun e h => hexp e (intClaim_eq_some.mp h)
  have hb0 : ∀ b, intClaim payload "nbf" = some b → b ≠ 0 :=
    fun b h => hnbf b (intClaim_eq_some.mp h)
  simp only [ekmf_check_login_token, claims_check_cases]
  simp only [← intClaim_eq_some]
  rcases hE : intClaim payload "exp" with _ | e <;>
    rcases hN : intClaim payload "nbf" with _ | b
  · simp [hE, hN]
  · have hb := hb0 b hN
    simp [hE, hN, hb]
  · have he := he0 e hE
    simp [hE, hN, he]
  · have he := he0 e hE
    have hb := hb0 b hN
    simp [hE, hN, he, hb]
    omega

/-- Claim C4 witness: the amended theorem applied at a token carrying only
`exp = 100`, checked at time 50 (not expired, so the return code is 0). -/
theorem C4_amended_witness :
    (ekmf_check_login_token (.token (.ok (Json.obj [("exp", Json.int 100)]))) 50).rc
      = 0 :=
  (C4_amended (Json.obj [("exp", Json.int 100)]) 50
    (by intro e h; simp [Json.objGet, Json.getField] at h; omega)
    (by intro b h; simp [Json.objGet, Json.getField] at h)).1

/-! ### C5 — malformed temporal claims -/

/-- Claim C5 counterexample: a token whose payload carries an `exp` claim
that is present but not an integer (`"abc"`).  The claim states this is a
hard parse error (nonzero return code); the code silently ignores the
claim and returns 0 with the token reported valid. -/
theorem C5_counterexample :
    (Json.obj [("exp", Json.str "abc")]).objGet "exp" = some (Json.str "abc") ∧
    (Json.str "abc").isInt = false ∧
    ekmf_check_login_token (.token (.ok (Json.obj [("exp", Json.str "abc")]))) 40
      = ⟨0, some true, true⟩ :=
  ⟨rfl, rfl, by decide⟩

/-- Claim C5 (amended): an `exp` or `nbf` claim present as integer zero is
a hard `- EIO` parse error, distinct from reporting the token expired; a
claim present but **not an integer** is not an error — it is silently
ignored, the outcome being a function of the integer views of the two
claims only (so a non-integer claim behaves exactly like an absent
one). -/
theorem C5_amended (payload payload' : Json) (now : Int)
    (hexp : intClaim payload "exp" = intClaim payload' "exp")
    (hnbf : intClaim payload "nbf" = intClaim payload' "nbf") :
    ((payload.objGet "exp" = some (Json.int 0) ∨
        payload.objGet "nbf" = some (Json.int 0)) →
      (ekmf_check_login_token (.token (.ok payload)) now).rc = - EIO) ∧
    ekmf_check_login_token (.token (.ok payload)) now =
      ekmf_check_login_token (.token (.ok payload')) now := by
  constructor
  · intro h
    simp only [ekmf_check_login_token, claims_check_cases]
    rcases h with h | h
    · have hE : intClaim payload "exp" = some 0 := intClaim_eq_some.mpr h
      rcases hN : intClaim payload "nbf" with _ | b <;> simp [hE, hN]
    · have hN : intClaim payload "nbf" = some 0 := intClaim_eq_some.mpr h
      rcases hE : intClaim payload "exp" with _ | e
      · simp [hE, hN]
      · simp [hE, hN]
        split_ifs <;> simp
  · simp only [ekmf_check_login_token, claims_check_cases, hexp, hnbf]

/-- Claim C5 witness: the amended theorem applied at a payload carrying
`exp = 0` (hard `- EIO` error). -/
theorem C5_amended_witness :
    (ekmf_check_login_token (.token (.ok (Json.obj [("exp", Json.int 0)]))) 5).rc
      = - EIO :=
  (C5_amended (Json.obj [("exp", Json.int 0)]) (Json.obj [("exp", Json.int 0)]) 5
    rfl rfl).1 (Or.inl rfl)

/-! ### C9 — behaviour when no login token is present -/

/-- Claim C9 counterexample: a call whose configured login-token file does
not exist (`stat` fails).  The claim states that a call with no login
token present returns `isValid = false` with a zero return code; the code
returns `-ENOENT` (nonzero) and never writes `*valid`. -/
theorem C9_counterexample :
    ekmf_check_login_token .missing 0 = ⟨-ENOENT, none, false⟩ ∧
    (-ENOENT : Int) ≠ 0 :=
  ⟨rfl, by decide⟩

/-- Claim C9 (amended): when no login token is **configured**
(`config->login_token == NULL`), `ekmf_check_login_token` returns
`isValid = false` with a zero return code; when a token file is configured
but does not exist, it returns `-ENOENT` without reporting a validity. -/
theorem C9_amended :
    (∀ now, ekmf_check_login_token .noConfig now = ⟨0, some false, false⟩) ∧
    (∀ now, ekmf_check_login_token .missing now = ⟨-ENOENT, none, false⟩) :=
  ⟨fun _ => rfl, fun _ => rfl⟩

/-! ### C6 — JWS algorithm selection from the signing key -/

/-- Claim C6: the JWS algorithm and digest are derived from the signing
key: EC P-256 → ES256/SHA-256, P-384 → ES384/SHA-384, P-521 →
ES512/SHA-512 with any caller-supplied digest overridden; RSA and RSA-PSS
use the caller-selected digest from SHA-256/384/512 (RS*/PS*), with
SHA-512 the default when none (0) is chosen; an unsupported curve or
digest choice fails with `-EINVAL`. -/
theorem C6_alg_selection :
    (∀ d, select_jws_alg (.ec NID_X9_62_prime256v1) d = .ok ("ES256", NID_sha256)) ∧
    (∀ d, select_jws_alg (.ec NID_secp384r1) d = .ok ("ES384", NID_sha384)) ∧
    (∀ d, select_jws_alg (.ec NID_secp521r1) d = .ok ("ES512", NID_sha512)) ∧
    (∀ c d, c ≠ NID_X9_62_prime256v1 → c ≠ NID_secp384r1 → c ≠ NID_secp521r1 →
      select_jws_alg (.ec c) d = .error (-EINVAL)) ∧
    (select_jws_alg .rsa NID_sha256 = .ok ("RS256", NID_sha256)) ∧
    (select_jws_alg .rsa NID_sha384 = .ok ("RS384", NID_sha384)) ∧
    (select_jws_alg .rsa NID_sha512 = .ok ("RS512", NID_sha512)) ∧
    (select_jws_alg .rsa 0 = .ok ("RS512", NID_sha512)) ∧
    (∀ d, d ≠ 0 → d ≠ NID_sha256 → d ≠ NID_sha384 → d ≠ NID_sha512 →
      select_jws_alg .rsa d = .error (-EINVAL)) ∧
    (select_jws_alg .rsaPss NID_sha256 = .ok ("PS256", NID_sha256)) ∧
    (select_jws_alg .rsaPss NID_sha384 = .ok ("PS384", NID_sha384)) ∧
    (select_jws_alg .rsaPss NID_sha512 = .ok ("PS512", NID_sha512)) ∧
    (select_jws_alg .rsaPss 0 = .ok ("PS512", NID_sha512)) ∧
    (∀ d, d ≠ 0 → d ≠ NID_sha256 → d ≠ NID_sha384 → d ≠ NID_sha512 →
      select_jws_alg .rsaPss d = .error (-EINVAL)) := by
  refine ⟨fun d => by rfl, fun d => by rfl, fun d => by rfl, ?_,
    rfl, rfl, rfl, rfl, ?_, rfl, rfl, rfl, rfl, ?_⟩
  · intro c d h1 h2 h3
    simp only [select_jws_alg]
    rw [if_neg h3, if_neg h2, if_neg h1]
  · intro d h0 h1 h2 h3
    simp only [select_jws_alg]
    rw [if_neg h1, if_neg h2, if_neg (by tauto)]
  · intro d h0 h1 h2 h3
    simp only [select_jws_alg]
    rw [if_neg h1, if_neg h2, if_neg (by tauto)]

/-- Claim C6 witness: the theorem applied at an unsupported curve
(NID 1) and an unsupported digest (NID 5). -/
theorem C6_alg_selection_witness :
    select_jws_alg (.ec 1) 0 = .error (-EINVAL) ∧
    select_jws_alg .rsa 5 = .error (-EINVAL) ∧
    select_jws_alg .rsaPss 5 = .error (-EINVAL) :=
  ⟨C6_alg_selection.2.2.2.1 1 0 (by decide) (by decide) (by decide),
   C6_alg_selection.2.2.2.2.2.2.2.2.1 5 (by decide) (by decide) (by decide)
     (by decide),
   C6_alg_selection.2.2.2.2.2.2.2.2.2.2.2.2.2 5 (by decide) (by decide)
     (by decide) (by decide)⟩

/-! ### C2 — response-signature verification -/

/-- Claim C2 counterexample: a response object whose `signature` field is
present but not a string.  The claim states that whenever the field was
present it has been removed when the function returns; here the function
returns `- EIO` and the object still contains the field. -/
theorem C2_counterexample :
    (Json.obj [("signature", Json.int 5), ("a", Json.int 1)]).objGet "signature"
        = some (Json.int 5) ∧
    ekmf_verify_signature vrfy0 (Json.obj [("signature", Json.int 5), ("a", Json.int 1)])
        = (- EIO, Json.obj [("signature", Json.int 5), ("a", Json.int 1)]) ∧
    (- EIO : Int) ≠ 0 :=
  ⟨rfl, rfl, by decide⟩

/-- Claim C2 (amended): if the response object has no **string**
`signature` field, verification fails with `- EIO` and the object is left
untouched; if the field is present as a string, it is removed, the
remaining object is re-serialized in canonical plain form, and the
detached signature is verified over exactly those bytes; the function
returns 0 only if such a field existed and the cryptographic verification
succeeded; whenever the field was present **as a string** it has been
removed from the object (no duplicate keys) when the function returns. -/
theorem C2_amended (vrfy : String → String → Int) (obj : Json) :
    ((∀ s, obj.objGet "signature" ≠ some (Json.str s)) →
      ekmf_verify_signature vrfy obj = (- EIO, obj)) ∧
    (∀ s, obj.objGet "signature" = some (Json.str s) →
      ekmf_verify_signature vrfy obj =
        (vrfy s ((obj.objDel "signature").serialize), obj.objDel "signature")) ∧
    (∀ s, obj.objGet "signature" = some (Json.str s) → keysNodup obj →
      ((ekmf_verify_signature vrfy obj).2).objGet "signature" = none) ∧
    ((ekmf_verify_signature vrfy obj).1 = 0 →
      ∃ s, obj.objGet "signature" = some (Json.str s) ∧
        vrfy s ((obj.objDel "signature").serialize) = 0) := by
  refine ⟨?_, ?_, ?_, ?_⟩
  · intro h
    unfold ekmf_verify_signature
    rcases hg : obj.objGet "signature" with _ | j
    · rfl
    · cases j <;> first
        | rfl
        | exact absurd hg (h _)
  · intro s hs
    unfold ekmf_verify_signature
    rw [hs]
  · intro s hs hnd
    unfold ekmf_verify_signature
    rw [hs]
    rcases obj with _ | _ | _ | _ | fs
    · simp [Json.objGet] at hs
    · simp [Json.objGet] at hs
    · simp [Json.objGet] at hs
    · simp [Json.objGet] at hs
    · simpa [Json.objDel, Json.objGet] using
        @getField_delField_self fs "signature" hnd
  · intro h
    unfold ekmf_verify_signature at h
    rcases hg : obj.objGet "signature" with _ | j
    · rw [hg] at h
      simp [ EIO] at h
    · cases j <;> rw [hg] at h <;> (try simp [ EIO] at h)
      exact ⟨_, rfl, h⟩

/-- Claim C2 witness: the amended theorem applied at a concrete response
object carrying a string signature field. -/
theorem C2_amended_witness :
    ekmf_verify_signature vrfy0 (Json.obj [("a", Json.int 1), ("signature", Json.str "sig")])
      = (vrfy0 "sig"
          (((Json.obj [("a", Json.int 1), ("signature", Json.str "sig")]).objDel
              "signature").serialize),
         (Json.obj [("a", Json.int 1), ("signature", Json.str "sig")]).objDel
            "signature") :=
  (C2_amended vrfy0 (Json.obj [("a", Json.int 1), ("signature", Json.str "sig")])).2.1
    "sig" rfl

/-! ### C3 — party-info ordering in the transport-key derivation -/

/-- Claim C3: for every successful key import, the combined party-info
byte string fed into the transport-key derivation
(`cca_ec_dh_derive_importer`) is exactly the requester's party-info bytes
followed by the responder's party-info bytes, with total length the sum
of the two lengths. -/
theorem C3_party_info_order (cca : CcaLib) (req_sess_key : List Nat)
    (req_party_info resp_party_info : List Nat)
    (resp_sess_jwk_obj resp_exp_jwk_obj : Json) (key_blob : List Nat)
    (_hok : ekmf_import_key cca req_sess_key req_party_info resp_party_info
        resp_sess_jwk_obj resp_exp_jwk_obj = Except.ok key_blob) :
    combined_party_info req_party_info resp_party_info
        = req_party_info ++ resp_party_info ∧
    (combined_party_info req_party_info resp_party_info).length
        = req_party_info.length + resp_party_info.length := by
  have hc : combined_party_info req_party_info resp_party_info
      = req_party_info ++ resp_party_info := by
    simp [combined_party_info, memcpy_at, malloc_bytes]
  exact ⟨hc, by simp [hc]⟩

/-- Claim C3 witness: the theorem applied at a successful import through a
backend whose operations all succeed. -/
theorem C3_party_info_order_witness :
    combined_party_info [1, 2] [3] = [1, 2] ++ [3] ∧
    (combined_party_info [1, 2] [3]).length = [1, 2].length + [3].length :=
  C3_party_info_order cca0 [0] [1, 2] [3] Json.null Json.null [1, 2, 3] rfl

/-! ### C7 — zeroization of ephemeral key material -/

/-- Claim C7 (the code violates it): the exit paths of `ekmf_retrieve_key`
and `_ekmf_import_key` perform no zeroization at all — running every
cleanup statement of either out label leaves the `req_sess_ec_key` and
`transport_key` buffer contents untouched, so nonzero key material is
still present when the functions return (there is no `memset`,
`OPENSSL_cleanse` or `explicit_bzero` anywhere in ekmfweb.c). -/
theorem C7_no_zeroization :
    (∀ s, run_cleanup retrieve_key_out_label s = s) ∧
    (∀ s, run_cleanup import_key_out_label s = s) ∧
    run_cleanup retrieve_key_out_label ⟨[1, 2, 3], [7, 7]⟩ = ⟨[1, 2, 3], [7, 7]⟩ ∧
    ([1, 2, 3] : List Nat) ≠ List.replicate 3 0 :=
  ⟨fun _ => rfl, fun _ => rfl, rfl, by decide⟩

/-! ### C8 — request field order and determinism -/

/-- Claim C8: the assembled request object has exactly the server-mandated
field order `{originator: {session, partyInfo}, additionalInfo: {kdf,
requestedKey, timestamp}}` with the `signature` field appended last, after
signing (the signed bytes are the serialization of the object without the
signature field); and two assemblies with identical inputs produce
byte-identical serialized output. -/
theorem C8_request_field_order (sess_jwk party_info_obj timestamp_obj signature_obj : Json)
    (key_uuid : String) :
    build_signed_request_obj sess_jwk party_info_obj key_uuid timestamp_obj signature_obj
        = Json.obj
            [("originator", Json.obj [("session", sess_jwk), ("partyInfo", party_info_obj)]),
             ("additionalInfo",
               Json.obj [("kdf", Json.str "ANS-X9.63-CCA"),
                         ("requestedKey", Json.str key_uuid),
                         ("timestamp", timestamp_obj)]),
             ("signature", signature_obj)] ∧
    (build_request_obj sess_jwk party_info_obj key_uuid timestamp_obj).objGet "signature"
        = none ∧
    build_signed_request_obj sess_jwk party_info_obj key_uuid timestamp_obj signature_obj
        = (build_request_obj sess_jwk party_info_obj key_uuid timestamp_obj).objAdd
            "signature" signature_obj ∧
    (∀ s p u t g, sess_jwk = s → party_info_obj = p → key_uuid = u →
      timestamp_obj = t → signature_obj = g →
      (build_signed_request_obj sess_jwk party_info_obj key_uuid timestamp_obj
          signature_obj).serialize
        = (build_signed_request_obj s p u t g).serialize) := by
  refine ⟨?_, ?_, rfl, ?_⟩
  · simp [build_signed_request_obj, build_request_obj, build_originator_obj,
      build_addl_info_obj, Json.objAdd, Json.addField]
  · simp [build_request_obj, build_originator_obj, build_addl_info_obj,
      Json.objAdd, Json.addField, Json.objGet, Json.getField]
  · intro s p u t g hs hp hu ht hg
    subst hs; subst hp; subst hu; subst ht; subst hg
    rfl

/-- Claim C8 witness: the theorem applied at concrete inputs, with the
identical-inputs hypotheses discharged by reflexivity. -/
theorem C8_request_field_order_witness :
    (build_signed_request_obj (Json.obj []) (Json.str "pi") "uuid-1"
        (Json.str "ts") (Json.str "sig")).serialize
      = (build_signed_request_obj (Json.obj []) (Json.str "pi") "uuid-1"
          (Json.str "ts") (Json.str "sig")).serialize :=
  (C8_request_field_order (Json.obj []) (Json.str "pi") (Json.str "ts")
      (Json.str "sig") "uuid-1").2.2.2
    (Json.obj []) (Json.str "pi") "uuid-1" (Json.str "ts") (Json.str "sig")
    rfl rfl rfl rfl rfl

/-! ### C10 — public-key extraction failures are swallowed -/

/-- Claim C10: `_ekmf_extract_pubkey` returns 0 for every input — even
when certificate parsing, public-key retrieval, opening the output file
or writing the PEM key fails (its internal `rc` can be nonzero, but the
function ends in `return 0`) — and consequently the result of
`_ekmf_process_certificate` (and hence of `ekmf_get_server_cert_chain`)
never depends on the outcome of public-key extraction. -/
theorem C10_extract_pubkey_swallows_errors :
    (∀ env, ekmf_extract_pubkey env = 0) ∧
    (∃ env, ekmf_extract_pubkey_rc env ≠ 0) ∧
    (∀ fp_given pub_given (entries entries' : List CertSlistEntry),
      entries.map certEntryView = entries'.map certEntryView →
      ekmf_process_certificate fp_given pub_given entries
        = ekmf_process_certificate fp_given pub_given entries') := by
  refine ⟨fun _ => rfl, ⟨⟨false, true, true, 2, true⟩, by decide⟩, ?_⟩
  intro fp pub entries
  induction entries with
  | nil =>
    intro es h
    cases es with
    | nil => rfl
    | cons e rest => simp at h
  | cons e rest ih =>
    intro es h
    cases es with
    | nil => simp at h
    | cons e' rest' =>
      simp only [List.map_cons, List.cons.injEq, certEntryView, Prod.mk.injEq] at h
      obtain ⟨⟨h1, h2, h3⟩, hrest⟩ := h
      simp [ekmf_process_certificate, ekmf_extract_pubkey, h1, h2, h3, ih _ hrest]

/-- Claim C10 witness: the theorem applied at two concrete entry lists
that agree outside the extraction environments but fail extraction in
opposite ways. -/
theorem C10_extract_pubkey_swallows_errors_witness :
    ekmf_process_certificate true true [⟨true, true, 2, ⟨false, true, true, 2, true⟩⟩]
      = ekmf_process_certificate true true [⟨true, true, 2, ⟨true, true, true, 2, true⟩⟩] :=
  C10_extract_pubkey_swallows_errors.2.2 true true
    [⟨true, true, 2, ⟨false, true, true, 2, true⟩⟩]
    [⟨true, true, 2, ⟨true, true, true, 2, true⟩⟩] rfl

/-! ### C1 — HTTP status-code mapping in `ekmf_retrieve_key` -/

/-- Claim C1 counterexample: a completed exchange with HTTP status 403
whose JSON body is an object lacking the string `message` field, with an
error message requested.  The claim states 403 maps to `-EPERM`; the code
returns `-EBADMSG` (the API-error extraction inside
`_ekmf_perform_request` fails and its error code wins). -/
theorem C1_counterexample :
    (ekmf_retrieve_key_response vrfy0 b640 0 403
        (some (Json.obj [("code", Json.int 7)])) true).rc = -EBADMSG ∧
    (-EBADMSG : Int) ≠ -EPERM :=
  ⟨rfl, by decide⟩

/-- Claim C1 (amended): for every completed HTTP exchange, provided any
status ≥ 400 JSON body passes API-error extraction (is an object with an
integer `code` and string `message`) whenever an error message was
requested, the status maps deterministically: 400 → `-EBADMSG`, 401 →
`-EACCES`, 403 → `-EPERM`, 404 → `-ENOENT`, any other non-200 status →
`- EIO` (otherwise such a body makes the call return `-EBADMSG` instead of
the status-mapped code); on any non-200 status the function returns
before response-signature verification and before key unwrap
(unconditionally); a 200 status with a JSON object body proceeds to
signature verification; and for a status ≥ 400 whose body carries integer
`code` and string `message`, the returned error message is
`"EKMFWeb: <code>: <message>"`, carrying the server-supplied message. -/
theorem C1_amended (vrfy : String → String → Int) (b64 : String → List Nat)
    (import_rc status : Int) (body : Option Json) (emr : Bool)
    (hbody : ∀ b, body = some b → 400 ≤ status → emr = true →
      ∃ m, ekmf_get_api_error b = Except.ok m) :
    (status = 400 →
      (ekmf_retrieve_key_response vrfy b64 import_rc status body emr).rc = -EBADMSG) ∧
    (status = 401 →
      (ekmf_retrieve_key_response vrfy b64 import_rc status body emr).rc = -EACCES) ∧
    (status = 403 →
      (ekmf_retrieve_key_response vrfy b64 import_rc status body emr).rc = -EPERM) ∧
    (status = 404 →
      (ekmf_retrieve_key_response vrfy b64 import_rc status body emr).rc = -ENOENT) ∧
    (status ≠ 200 → status ≠ 400 → status ≠ 401 → status ≠ 403 → status ≠ 404 →
      (ekmf_retrieve_key_response vrfy b64 import_rc status body emr).rc = - EIO) ∧
    (status ≠ 200 →
      (ekmf_retrieve_key_response vrfy b64 import_rc status body emr).verify_attempted
          = false ∧
      (ekmf_retrieve_key_response vrfy b64 import_rc status body emr).unwrap_attempted
          = false) ∧
    (∀ b, status = 200 → body = some b → b.isObj = true →
      (ekmf_retrieve_key_response vrfy b64 import_rc status body emr).verify_attempted
          = true) ∧
    (∀ b c m, body = some b → 400 ≤ status → emr = true →
      b.isObj = true → b.objGet "code" = some (Json.int c) →
      b.objGet "message" = some (Json.str m) →
      (ekmf_retrieve_key_response vrfy b64 import_rc status body emr).error_msg
          = some ("EKMFWeb: " ++ toString c ++ ": " ++ m)) := by
  have hpost : ∃ resp emsg, perform_request_post status body emr = (0, resp, emsg) := by
    rcases body with _ | b
    · exact ⟨none, none, by simp [perform_request_post]⟩
    · cases emr with
      | false => exact ⟨some b, none, by simp [perform_request_post]⟩
      | true =>
        by_cases hs : 400 ≤ status
        · obtain ⟨m, hm⟩ := hbody b rfl hs rfl
          exact ⟨none, some m, by simp [perform_request_post, hs, hm]⟩
        · exact ⟨some b, none, by simp [perform_request_post, hs]⟩
  obtain ⟨resp, emsg, hp⟩ := hpost
  refine ⟨?_, ?_, ?_, ?_, ?_, ?_, ?_, ?_⟩
  · intro h; subst h; simp [ekmf_retrieve_key_response, hp]
  · intro h; subst h; simp [ekmf_retrieve_key_response, hp]
  · intro h; subst h; simp [ekmf_retrieve_key_response, hp]
  · intro h; subst h; simp [ekmf_retrieve_key_response, hp]
  · intro h200 h400 h401 h403 h404
    simp [ekmf_retrieve_key_response, hp, h200, h400, h401, h403, h404]
  · intro h200
    simp only [ekmf_retrieve_key_response, hp]
    split_ifs <;> simp_all
  · intro b h200 hb hobj
    subst h200; subst hb
    have hp2 : perform_request_post 200 (some b) emr = (0, some b, none) := by
      simp [perform_request_post]
    simp [ekmf_retrieve_key_response, hp2, hobj]
    split_ifs with hv
    · split <;> rfl
    · rfl
  · intro b c m hb hs hemr hobj hc hm
    subst hb; subst hemr
    have hok := ekmf_get_api_error_ok hobj hc hm
    have hp2 : perform_request_post status (some b) true
        = (0, none, some ("EKMFWeb: " ++ toString c ++ ": " ++ m)) := by
      simp [perform_request_post, hs, hok]
    have h200 : status ≠ 200 := by omega
    simp [ekmf_retrieve_key_response, hp2]
    split_ifs <;> simp_all

/-- Claim C1 witness: the amended theorem applied at a completed exchange
with status 403 and no response body (the body hypothesis holds
vacuously): the result is `-EPERM`. -/
theorem C1_amended_witness :
    (ekmf_retrieve_key_response vrfy0 b640 0 403 none true).rc = -EPERM :=
  (C1_amended vrfy0 b640 0 403 none true (fun _ h => nomatch h)).2.2.1 rfl

end EkmfWeb
